import Mathlib

/-!
Verification development for the kr-dialect machine-translation trainer
(`src/main.py`).  The training and validation loops, the model-construction
fragment of `main()`, and the criterion wiring are embedded shallowly; the
collaborators that live in repository files outside `src/` (`utils.AverageMeter`,
the `Transformer` mask construction of `model.py`, the dataset) are modelled
from the specification where a claim needs them, and each such definition says
so in its doc comment.  Token ids are `ℤ`, scalar losses are `ℚ`.
-/

namespace KrDialect

/-- Modelled from the spec: `utils.AverageMeter` (repository file `utils.py`,
not under `src/`) — "accumulator holding a running sum and count; reset at the
start of each epoch; read at epoch end to report and log an average", with
`update(value, weight)` accumulating a running average of loss weighted by
batch size (§3, §9 of the spec). -/
structure AverageMeter where
  val : ℚ
  sum : ℚ
  count : ℕ
  avg : ℚ
deriving DecidableEq

/-- A freshly constructed meter: zero sum, zero count, zero average. -/
def AverageMeter.init : AverageMeter := ⟨0, 0, 0, 0⟩

/-- Modelled from the spec: `AverageMeter.update(val, n)` adds `val * n` to the
running sum and `n` to the count, and recomputes the average as sum / count. -/
def AverageMeter.update (m : AverageMeter) (v : ℚ) (n : ℕ) : AverageMeter :=
  let sum := m.sum + v * n
  let count := m.count + n
  ⟨v, sum, count, sum / (count : ℚ)⟩

/-- A batch as delivered by the data loader: `(src, tgt, label)` from
`for i,(src,tgt,label) in enumerate(loader)` (`main.py:140`, `main.py:172`).
Rows of `src`/`tgt` are padded token-id sequences; `label` is the per-example
location label vector.  The `.to(device)` moves are identities here. -/
structure Batch where
  src : List (List ℤ)
  tgt : List (List ℤ)
  label : List ℤ
deriving DecidableEq

/-- `tgt[:, :-1]` (`main.py:145`, `main.py:174`): every target row with its
final token removed — the decoder input. -/
def decoderInput (tgt : List (List ℤ)) : List (List ℤ) :=
  tgt.map List.dropLast

/-- `tgt[:, 1:].contiguous().view(-1)` (`main.py:149`, `main.py:177`): every
target row with its first token removed, flattened row-major — the label
vector scored against the flattened logits. -/
def shiftedLabels (tgt : List (List ℤ)) : List ℤ :=
  (tgt.map (List.drop 1)).flatten

/-- The injected differentiable-computation capability (spec §9: the autodiff
engine and the model are external to the loop).  `forward p training src decIn`
is `model(src, decIn)`'s logits with parameters `p` and the train/eval mode
flag set by `model.train()` / `model.eval()`; `criterion out labels` is the
scalar loss of `criterion(output, tgt)` on the flattened logits; `gradStep`
is `optimizer.zero_grad(); loss.backward(); optimizer.step()` collapsed into
the resulting parameter update, a function of the current parameters and the
tensors the loss was computed from. -/
structure Semantics (P L : Type) where
  forward : P → Bool → List (List ℤ) → List (List ℤ) → L
  criterion : L → List ℤ → ℚ
  gradStep : P → List (List ℤ) → List (List ℤ) → List ℤ → P

/-- One training-loop batch body (`main.py:144`–`main.py:153`): forward on
`(src, tgt[:, :-1])` in train mode, loss on the flattened logits against
`tgt[:, 1:]`, backward and one optimizer step.  Returns the updated
parameters and the scalar loss recorded by the meter (`main.py:155`).
The batch's `label` component is moved to the device (`main.py:141`) but
never read. -/
def trainBatch {P L : Type} (M : Semantics P L) (p : P) (b : Batch) : P × ℚ :=
  let decIn := decoderInput b.tgt
  let output := M.forward p true b.src decIn
  let labels := shiftedLabels b.tgt
  let loss := M.criterion output labels
  let p2 := M.gradStep p b.src decIn labels
  (p2, loss)

/-- One validation-loop batch body (`main.py:174`–`main.py:178`): the same
forward and loss computation, in eval mode, under `torch.no_grad()`, with no
optimizer step — only the scalar loss is produced. -/
def valBatchLoss {P L : Type} (M : Semantics P L) (p : P) (b : Batch) : ℚ :=
  M.criterion (M.forward p false b.src (decoderInput b.tgt)) (shiftedLabels b.tgt)

/-- A training-loop input: the batch plus the oracle wall-clock readings
`time.time()-end` observed for data loading (`main.py:142`) and for the whole
iteration (`main.py:156`). -/
def TrainInput : Type := Batch × ℚ × ℚ

/-- The training loop of `train` (`main.py:140`–`main.py:157`), threading the
parameters and the three meters (`train_loss`, `iter_time`, `data_time`)
through the batches. -/
def trainEpoch {P L : Type} (M : Semantics P L) :
    P → AverageMeter → AverageMeter → AverageMeter → List TrainInput →
      P × AverageMeter × AverageMeter × AverageMeter
  | p, tl, it, dt, [] => (p, tl, it, dt)
  | p, tl, it, dt, (b, dTime, iTime) :: rest =>
      let dt2 := dt.update dTime 1
      let pr := trainBatch M p b
      let tl2 := tl.update pr.2 b.src.length
      let it2 := it.update iTime 1
      trainEpoch M pr.1 tl2 it2 dt2 rest

/-- `train(model, loader, ...)` (`main.py:132`–`main.py:164`): switches to
train mode, constructs the three meters afresh (`main.py:135`–`main.py:137`),
runs the loop, and returns the updated parameters together with the meters
read at epoch end for the log record. -/
def train {P L : Type} (M : Semantics P L) (p : P) (inputs : List TrainInput) :
    P × AverageMeter × AverageMeter × AverageMeter :=
  trainEpoch M p AverageMeter.init AverageMeter.init AverageMeter.init inputs

/-- The validation loop of `validate` (`main.py:171`–`main.py:179`): under
`torch.no_grad()`, per batch the loss is computed and accumulated; the
parameters are never written. -/
def valEpoch {P L : Type} (M : Semantics P L) :
    P → AverageMeter → List Batch → P × AverageMeter
  | p, vl, [] => (p, vl)
  | p, vl, b :: rest =>
      valEpoch M p (vl.update (valBatchLoss M p b) b.src.length) rest

/-- `validate(model, loader, ...)` (`main.py:166`–`main.py:182`): switches to
eval mode, constructs a fresh `val_loss` meter (`main.py:169`), runs the
no-grad loop, and returns the parameters and the epoch-end meter. -/
def validate {P L : Type} (M : Semantics P L) (p : P) (bs : List Batch) :
    P × AverageMeter :=
  valEpoch M p AverageMeter.init bs

/-- The observable side effects of `main()`'s run phase, in order: one `train`
call and one `validate` call per epoch (`main.py:125`–`main.py:127`), and the
`torch.save` of the parameter file (`main.py:130`). -/
inductive Event where
  | trainEv : ℕ → Event
  | valEv : ℕ → Event
  | saveEv : Event
deriving DecidableEq

/-- The state threaded through `main()`'s epoch loop: the model parameters,
the records appended to `train.log` and `val.log` (`main.py:164`,
`main.py:182`), and the ordered event trace. -/
structure RunState (P : Type) where
  params : P
  trainLog : List (ℕ × ℚ × ℚ × ℚ)
  valLog : List (ℕ × ℚ)
  events : List Event

/-- `for epoch in range(n): train(...); validate(...)` (`main.py:125`–
`main.py:127`).  `tSched e` and `vSched e` are the batches (with timing
oracles) the loaders deliver during epoch `e`. -/
def runEpochs {P L : Type} (M : Semantics P L) (tSched : ℕ → List TrainInput)
    (vSched : ℕ → List Batch) (p0 : P) : ℕ → RunState P
  | 0 => ⟨p0, [], [], []⟩
  | n + 1 =>
      let s := runEpochs M tSched vSched p0 n
      let tr := train M s.params (tSched n)
      let va := validate M tr.1 (vSched n)
      ⟨va.1,
       s.trainLog ++ [(n, tr.2.1.avg, tr.2.2.1.avg, tr.2.2.2.avg)],
       s.valLog ++ [(n, va.2.avg)],
       s.events ++ [Event.trainEv n, Event.valEv n]⟩

/-- The run phase of `main()`: all epochs, then the single
`torch.save(model.state_dict(), ...)` (`main.py:125`–`main.py:130`). -/
def runMain {P L : Type} (M : Semantics P L) (tSched : ℕ → List TrainInput)
    (vSched : ℕ → List Batch) (p0 : P) (n : ℕ) : RunState P :=
  let s := runEpochs M tSched vSched p0 n
  ⟨s.params, s.trainLog, s.valLog, s.events ++ [Event.saveEv]⟩

/-- The per-batch `(loss.item(), src.size(0))` pairs recorded by
`train_loss.update` across one training epoch (`main.py:155`), with the
parameters threaded batch to batch. -/
def trainLosses {P L : Type} (M : Semantics P L) : P → List TrainInput → List (ℚ × ℕ)
  | _, [] => []
  | p, (b, _, _) :: rest =>
      ((trainBatch M p b).2, b.src.length) :: trainLosses M (trainBatch M p b).1 rest

/-- `sum(loss_k * B_k)` over a list of (loss, batch-size) pairs. -/
def weightedSum (l : List (ℚ × ℕ)) : ℚ :=
  (l.map (fun q => q.1 * (q.2 : ℚ))).sum

/-- `sum(B_k)` over a list of (loss, batch-size) pairs. -/
def totalWeight (l : List (ℚ × ℕ)) : ℕ :=
  (l.map (fun q => q.2)).sum

/-- The external tokenizer interface (`sentencepiece` processor loaded at
`main.py:52`–`main.py:53`): its piece count (`sp.get_piece_size()`) and its
reserved pad id (`sp.pad_id()`). -/
structure SPModel where
  pieceSize : ℕ
  padId : ℤ
deriving DecidableEq

/-- The configuration fields of `args` that model construction reads
(`main.py:20`–`main.py:38`). -/
structure Args where
  hiddenDim : ℕ
  encLayer : ℕ
  decLayer : ℕ
  encHead : ℕ
  decHead : ℕ
  useLoc : Bool
deriving DecidableEq

/-- The validation dataset's per-example location labels
(`val_dataset.location_label`, read at `main.py:83`). -/
structure NMTData where
  locationLabel : List ℤ
deriving DecidableEq

/-- `len(np.unique(val_dataset.location_label))` (`main.py:83`): the number of
distinct location labels. -/
def numLocation (d : NMTData) : ℕ :=
  d.locationLabel.dedup.length

/-- `num_vocab` (`main.py:84`–`main.py:87`): the tokenizer's piece count, plus
the number of distinct location labels when `use_loc` is set. -/
def numVocab (a : Args) (sp : SPModel) (d : NMTData) : ℕ :=
  if a.useLoc then sp.pieceSize + numLocation d else sp.pieceSize

/-- The `Encoder` constructor arguments (`main.py:89`–`main.py:96`). -/
structure Encoder where
  inputDim : ℕ
  hiddenDim : ℕ
  nLayers : ℕ
  nHeads : ℕ
  pfDim : ℕ
  dropoutRatio : ℚ
deriving DecidableEq

/-- The `Decoder` constructor arguments (`main.py:98`–`main.py:105`). -/
structure Decoder where
  outputDim : ℕ
  hiddenDim : ℕ
  nLayers : ℕ
  nHeads : ℕ
  pfDim : ℕ
  dropoutRatio : ℚ
deriving DecidableEq

/-- The `Transformer` constructor arguments (`main.py:107`–`main.py:113`):
the encoder, the decoder, a source-side pad id and a target-side pad id. -/
structure Transformer where
  encoder : Encoder
  decoder : Decoder
  srcPadIdx : ℤ
  trgPadIdx : ℤ
deriving DecidableEq

/-- The model-construction fragment of `main()` (`main.py:83`–`main.py:113`).
The guard is modelled from the spec: §7 — "requested location-conditioning
with no location labels present" is a fatal configuration error at
model-construction time, fail fast, no partial construction; the check itself
lives in repository code outside `src/` (the dataset/model modules), while
`src/main.py` contributes the `num_location` computation from the validation
dataset's labels and the vocabulary arithmetic. -/
def mainBuild (a : Args) (sp : SPModel) (d : NMTData) : Except String Transformer :=
  if a.useLoc = true ∧ d.locationLabel = [] then
    Except.error "location-conditioning requested but no location labels present"
  else
    Except.ok
      { encoder := ⟨numVocab a sp d, a.hiddenDim, a.encLayer, a.encHead, 512, 1 / 10⟩
        decoder := ⟨numVocab a sp d, a.hiddenDim, a.decLayer, a.decHead, 512, 1 / 10⟩
        srcPadIdx := sp.padId
        trgPadIdx := sp.padId }

/-- Modelled from the spec: `Transformer.make_src_mask` (repository file
`model.py`, not under `src/`) — §4.6: "source padding mask: true where source
id ≠ pad-id", derived from the model's source pad index. -/
def makeSrcMask (padIdx : ℤ) (src : List ℤ) : List Bool :=
  src.map (fun t => decide (t ≠ padIdx))

/-- Modelled from the spec: `Transformer.make_trg_mask` (repository file
`model.py`, not under `src/`) — §4.6: "elementwise AND of (a) padding mask
over target ids and (b) a static lower-triangular causal mask", derived from
the model's target pad index; entry (i, j) says whether query position i may
attend to key position j. -/
def makeTrgMask (padIdx : ℤ) (trg : List ℤ) : List (List Bool) :=
  (List.range trg.length).map (fun i =>
    trg.enum.map (fun q => decide (q.2 ≠ padIdx) && decide (q.1 ≤ i)))

/-- The two masks a forward pass builds internally (spec §4.6), each from the
corresponding pad index the `Transformer` was constructed with. -/
def forwardMasks (m : Transformer) (src trg : List ℤ) : List Bool × List (List Bool) :=
  (makeSrcMask m.srcPadIdx src, makeTrgMask m.trgPadIdx trg)

/-- Modelled from the spec: `nn.CrossEntropyLoss(ignore_index=pad)`
(`main.py:117` constructs it; the semantics is the external library's) —
"masked cross-entropy ignoring pad-id positions" (§4.7): the contributing
set is the flattened positions whose label differs from the ignore index. -/
def ceContributing (ignoreIdx : ℤ) (labels : List ℤ) : List (ℕ × ℤ) :=
  labels.enum.filter (fun q => decide (q.2 ≠ ignoreIdx))

/-- Modelled from the spec: the mean-reduced masked cross-entropy.  `cost i t`
abstracts the per-position cross-entropy of the flattened logits row `i`
against class `t`; ignored positions contribute to neither the numerator nor
the denominator. -/
def ceLoss (cost : ℕ → ℤ → ℚ) (ignoreIdx : ℤ) (labels : List ℤ) : ℚ :=
  ((ceContributing ignoreIdx labels).map (fun q => cost q.1 q.2)).sum /
    ((ceContributing ignoreIdx labels).length : ℚ)

/-- `criterion = nn.CrossEntropyLoss(ignore_index=sp.pad_id())`
(`main.py:117`): the loss both loops use, with the tokenizer's pad id as the
ignore index. -/
def mainCriterion (sp : SPModel) (cost : ℕ → ℤ → ℚ) : List ℤ → ℚ :=
  ceLoss cost sp.padId

/-- Folding `update` over (value, weight) pairs, as the training loop does
with its `train_loss` meter. -/
def foldMeter (m : AverageMeter) (l : List (ℚ × ℕ)) : AverageMeter :=
  l.foldl (fun m q => m.update q.1 q.2) m

theorem foldMeter_sum (l : List (ℚ × ℕ)) (m : AverageMeter) :
    (foldMeter m l).sum = m.sum + weightedSum l := by
  induction l generalizing m with
  | nil => simp [foldMeter, weightedSum]
  | cons q rest ih =>
      simp only [foldMeter, List.foldl_cons] at *
      rw [ih]
      simp [AverageMeter.update, weightedSum]
      ring

theorem foldMeter_count (l : List (ℚ × ℕ)) (m : AverageMeter) :
    (foldMeter m l).count = m.count + totalWeight l := by
  induction l generalizing m with
  | nil => simp [foldMeter, totalWeight]
  | cons q rest ih =>
      simp only [foldMeter, List.foldl_cons] at *
      rw [ih]
      simp [AverageMeter.update, totalWeight]
      ring

theorem foldMeter_avg_eq_div (l : List (ℚ × ℕ)) (m : AverageMeter) (h : l ≠ []) :
    (foldMeter m l).avg = (foldMeter m l).sum / ((foldMeter m l).count : ℚ) := by
  induction l generalizing m with
  | nil => exact absurd rfl h
  | cons q rest ih =>
      cases rest with
      | nil => simp [foldMeter, AverageMeter.update]
      | cons r rest2 =>
          simp only [foldMeter, List.foldl_cons] at *
          exact ih (m.update q.1 q.2) (by simp)

/-- The meter started fresh and fed the epoch's (loss, size) pairs reports the
batch-size-weighted mean. -/
theorem foldMeter_init_avg (l : List (ℚ × ℕ)) :
    (foldMeter AverageMeter.init l).avg = weightedSum l / (totalWeight l : ℚ) := by
  cases l with
  | nil => simp [foldMeter, AverageMeter.init, weightedSum, totalWeight]
  | cons q rest =>
      rw [foldMeter_avg_eq_div _ _ (by simp), foldMeter_sum, foldMeter_count]
      simp [AverageMeter.init]

/-- The `train_loss` meter coming out of the training loop is exactly the fold
of `update` over the per-batch (loss, size) pairs. -/
theorem trainEpoch_loss_meter {P L : Type} (M : Semantics P L)
    (inputs : List TrainInput) (p : P) (tl it dt : AverageMeter) :
    (trainEpoch M p tl it dt inputs).2.1 = foldMeter tl (trainLosses M p inputs) := by
  induction inputs generalizing p tl it dt with
  | nil => simp [trainEpoch, trainLosses, foldMeter]
  | cons x rest ih =>
      obtain ⟨b, dTime, iTime⟩ := x
      simp only [trainEpoch, trainLosses, foldMeter, List.foldl_cons]
      exact ih _ _ _ _

theorem valEpoch_params {P L : Type} (M : Semantics P L) (bs : List Batch) :
    ∀ (p : P) (vl : AverageMeter), (valEpoch M p vl bs).1 = p := by
  induction bs with
  | nil => intro p vl; rfl
  | cons b rest ih => intro p vl; exact ih p _

/-- A concrete instantiation of the injected computation capability, used to
evaluate the loop embedding on concrete inputs. -/
def demoSem : Semantics ℚ Unit where
  forward := fun _ _ _ _ => ()
  criterion := fun _ labels => (labels.length : ℚ)
  gradStep := fun p _ _ _ => p + 1

/-- Claim C1: in both the training and the validation batch body, the decoder
input passed to the model's forward is the target with its final token removed
(`tgt[:, :-1]`), the label vector scored against the flattened logits is the
target with its first token removed, flattened (`tgt[:, 1:].view(-1)`), and the
two align one step ahead: position `i` of a shifted row is token `i + 1` of the
original row, while position `i` of the decoder-input row is token `i`. -/
theorem C1_shift_by_one_alignment {P L : Type} (M : Semantics P L) (p : P) (b : Batch) :
    trainBatch M p b =
      (M.gradStep p b.src (b.tgt.map List.dropLast) ((b.tgt.map (List.drop 1)).flatten),
       M.criterion (M.forward p true b.src (b.tgt.map List.dropLast))
         ((b.tgt.map (List.drop 1)).flatten)) ∧
    valBatchLoss M p b =
      M.criterion (M.forward p false b.src (b.tgt.map List.dropLast))
        ((b.tgt.map (List.drop 1)).flatten) ∧
    decoderInput b.tgt = b.tgt.map List.dropLast ∧
    shiftedLabels b.tgt = (b.tgt.map (List.drop 1)).flatten ∧
    (∀ (r : List ℤ) (i : ℕ), (r.drop 1)[i]? = r[1 + i]?) ∧
    (∀ (r : List ℤ) (i : ℕ), i + 1 < r.length → r.dropLast[i]? = r[i]?) := by
  refine ⟨rfl, rfl, rfl, rfl, fun r i => List.getElem?_drop r 1 i, fun r i h => ?_⟩
  rw [List.dropLast_eq_take, List.getElem?_take_of_lt]
  omega

/-- Witness for C1 on the spec's end-to-end example: target row
`[bos, 3, 9, eos, pad]` with `bos = 1`, `eos = 2`, `pad = 0`. -/
theorem C1_shift_by_one_alignment_witness :
    (1 : ℕ) + 1 < ([1, 3, 9, 2, 0] : List ℤ).length ∧
    ([1, 3, 9, 2, 0] : List ℤ).dropLast[1]? = ([1, 3, 9, 2, 0] : List ℤ)[1]? :=
  ⟨by decide,
   (C1_shift_by_one_alignment demoSem 0 ⟨[[5, 12, 7, 0, 0]], [[1, 3, 9, 2, 0]], [0]⟩).2.2.2.2.2
     [1, 3, 9, 2, 0] 1 (by decide)⟩

/-- Claim C3: `validate` performs the same forward and loss computation as the
training batch body — in eval mode, with no optimizer step — and every model
parameter has the same value after `validate` returns as when it was called. -/
theorem C3_validate_no_param_update {P L : Type} (M : Semantics P L) (p : P)
    (bs : List Batch) (b : Batch) :
    (validate M p bs).1 = p ∧
    valBatchLoss M p b =
      M.criterion (M.forward p false b.src (decoderInput b.tgt)) (shiftedLabels b.tgt) ∧
    (trainBatch M p b).2 =
      M.criterion (M.forward p true b.src (decoderInput b.tgt)) (shiftedLabels b.tgt) :=
  ⟨valEpoch_params M bs p AverageMeter.init, rfl, rfl⟩

/-- Claim C9: the per-example location label delivered with a batch has no
influence on the training step's loss and parameter update, nor on the
validation loss: batches agreeing on `src` and `tgt` produce identical
results whatever their label vectors. -/
theorem C9_label_noninterference {P L : Type} (M : Semantics P L) (p : P)
    (b1 b2 : Batch) (hs : b1.src = b2.src) (ht : b1.tgt = b2.tgt) :
    trainBatch M p b1 = trainBatch M p b2 ∧
    valBatchLoss M p b1 = valBatchLoss M p b2 := by
  constructor <;> simp [trainBatch, valBatchLoss, hs, ht]

/-- Witness for C9: two batches equal except for their label vectors. -/
theorem C9_label_noninterference_witness :
    (Batch.mk [[5, 12]] [[1, 3, 2]] [0]).src = (Batch.mk [[5, 12]] [[1, 3, 2]] [7]).src ∧
    (Batch.mk [[5, 12]] [[1, 3, 2]] [0]).tgt = (Batch.mk [[5, 12]] [[1, 3, 2]] [7]).tgt ∧
    trainBatch demoSem 0 (Batch.mk [[5, 12]] [[1, 3, 2]] [0]) =
      trainBatch demoSem 0 (Batch.mk [[5, 12]] [[1, 3, 2]] [7]) ∧
    valBatchLoss demoSem 0 (Batch.mk [[5, 12]] [[1, 3, 2]] [0]) =
      valBatchLoss demoSem 0 (Batch.mk [[5, 12]] [[1, 3, 2]] [7]) := by
  exact ⟨rfl, rfl,
    (C9_label_noninterference demoSem 0 (Batch.mk [[5, 12]] [[1, 3, 2]] [0])
      (Batch.mk [[5, 12]] [[1, 3, 2]] [7]) rfl rfl).1,
    (C9_label_noninterference demoSem 0 (Batch.mk [[5, 12]] [[1, 3, 2]] [0])
      (Batch.mk [[5, 12]] [[1, 3, 2]] [7]) rfl rfl).2⟩

/-- Claim C4: the training loop's reported loss is the batch-size-weighted
mean of the per-batch losses — `sum(loss_k * B_k) / sum(B_k)` — and on the
spec's example (sizes 2, 4, 4 with losses 1, 2, 3) the meter reports
`(2*1 + 4*2 + 4*3) / 10 = 11/5 = 2.2`. -/
theorem C4_weighted_running_average {P L : Type} (M : Semantics P L) (p : P)
    (inputs : List TrainInput) :
    (train M p inputs).2.1.avg =
      weightedSum (trainLosses M p inputs) /
        (totalWeight (trainLosses M p inputs) : ℚ) ∧
    (((AverageMeter.init.update 1 2).update 2 4).update 3 4).avg = 11 / 5 ∧
    weightedSum [(1, 2), (2, 4), (3, 4)] / (totalWeight [(1, 2), (2, 4), (3, 4)] : ℚ)
      = 11 / 5 := by
  refine ⟨?_, ?_, ?_⟩
  · rw [train, trainEpoch_loss_meter, foldMeter_init_avg]
  · norm_num [AverageMeter.init, AverageMeter.update]
  · norm_num [weightedSum, totalWeight]

/-- Claim C2: the loss both loops use is a masked cross-entropy whose
contributing set never contains a position labelled with the tokenizer's pad
id; when every shifted label position of a batch equals the pad id the
contributing set is empty and the criterion's value is zero — an all-pad
slice contributes nothing. -/
theorem C2_pad_positions_ignored (sp : SPModel) (cost : ℕ → ℤ → ℚ) (b : Batch)
    (h : ∀ l ∈ shiftedLabels b.tgt, l = sp.padId) :
    (∀ (labels : List ℤ) (q : ℕ × ℤ),
        q ∈ ceContributing sp.padId labels → q.2 ≠ sp.padId) ∧
    ceContributing sp.padId (shiftedLabels b.tgt) = [] ∧
    mainCriterion sp cost (shiftedLabels b.tgt) = 0 := by
  have empty : ceContributing sp.padId (shiftedLabels b.tgt) = [] := by
    rw [ceContributing, List.filter_eq_nil_iff]
    intro q hq
    have hmem : q.2 ∈ shiftedLabels b.tgt := List.snd_mem_of_mem_enum hq
    simp [h q.2 hmem]
  refine ⟨?_, empty, ?_⟩
  · intro labels q hq
    have := List.of_mem_filter hq
    simpa using this
  · rw [mainCriterion, ceLoss, empty]
    simp

/-- Witness for C2: pad id 3, a batch whose single target row `[1, 3, 3]`
shifts to the all-pad label slice `[3, 3]`. -/
theorem C2_pad_positions_ignored_witness :
    (∀ l ∈ shiftedLabels (Batch.mk [[5]] [[1, 3, 3]] [0]).tgt, l = (SPModel.mk 4000 3).padId) ∧
    ceContributing (SPModel.mk 4000 3).padId
      (shiftedLabels (Batch.mk [[5]] [[1, 3, 3]] [0]).tgt) = [] ∧
    mainCriterion (SPModel.mk 4000 3) (fun _ _ => 1)
      (shiftedLabels (Batch.mk [[5]] [[1, 3, 3]] [0]).tgt) = 0 :=
  ⟨by decide,
   (C2_pad_positions_ignored (SPModel.mk 4000 3) (fun _ _ => 1)
      (Batch.mk [[5]] [[1, 3, 3]] [0]) (by decide)).2.1,
   (C2_pad_positions_ignored (SPModel.mk 4000 3) (fun _ _ => 1)
      (Batch.mk [[5]] [[1, 3, 3]] [0]) (by decide)).2.2⟩

/-- Claim C5: the vocabulary size is fixed at construction — the tokenizer's
piece count, plus the number of distinct location labels exactly when
location-conditioning is enabled — and the same value is the encoder's input
dimension and the decoder's output dimension. -/
theorem C5_vocab_size_fixed (a : Args) (sp : SPModel) (d : NMTData) (m : Transformer)
    (h : mainBuild a sp d = Except.ok m) :
    m.encoder.inputDim = numVocab a sp d ∧
    m.decoder.outputDim = numVocab a sp d ∧
    m.encoder.inputDim = m.decoder.outputDim ∧
    numVocab a sp d =
      (if a.useLoc then sp.pieceSize + numLocation d else sp.pieceSize) := by
  rw [mainBuild] at h
  split at h
  · exact absurd h (by simp)
  · cases h
    exact ⟨rfl, rfl, rfl, rfl⟩

/-- Witness for C5: location-conditioning off, 4000 pieces, two labels. -/
theorem C5_vocab_size_fixed_witness :
    mainBuild (Args.mk 256 6 6 8 8 false) (SPModel.mk 4000 3) (NMTData.mk [0, 1]) =
      Except.ok
        (Transformer.mk (Encoder.mk 4000 256 6 8 512 (1 / 10))
          (Decoder.mk 4000 256 6 8 512 (1 / 10)) 3 3) ∧
    (Transformer.mk (Encoder.mk 4000 256 6 8 512 (1 / 10))
        (Decoder.mk 4000 256 6 8 512 (1 / 10)) 3 3).encoder.inputDim =
      numVocab (Args.mk 256 6 6 8 8 false) (SPModel.mk 4000 3) (NMTData.mk [0, 1]) :=
  ⟨by rfl,
   (C5_vocab_size_fixed (Args.mk 256 6 6 8 8 false) (SPModel.mk 4000 3)
      (NMTData.mk [0, 1]) _ (by rfl)).1⟩

/-- Claim C6: requesting location-conditioning with no location labels present
is a fatal configuration error at model-construction time: `mainBuild` returns
an error and no constructed model exists. -/
theorem C6_useloc_without_labels_fatal (a : Args) (sp : SPModel) (d : NMTData)
    (hu : a.useLoc = true) (hl : d.locationLabel = []) :
    mainBuild a sp d =
      Except.error "location-conditioning requested but no location labels present" ∧
    ∀ m : Transformer, mainBuild a sp d ≠ Except.ok m := by
  have herr : mainBuild a sp d =
      Except.error "location-conditioning requested but no location labels present" := by
    rw [mainBuild, if_pos ⟨hu, hl⟩]
  exact ⟨herr, fun m hm => by rw [herr] at hm; exact Except.noConfusion hm⟩

/-- Witness for C6: `use_loc` set, empty label list. -/
theorem C6_useloc_without_labels_fatal_witness :
    (Args.mk 256 6 6 8 8 true).useLoc = true ∧
    (NMTData.mk []).locationLabel = [] ∧
    mainBuild (Args.mk 256 6 6 8 8 true) (SPModel.mk 4000 3) (NMTData.mk []) =
      Except.error "location-conditioning requested but no location labels present" :=
  ⟨rfl, rfl,
   (C6_useloc_without_labels_fatal (Args.mk 256 6 6 8 8 true) (SPModel.mk 4000 3)
      (NMTData.mk []) rfl rfl).1⟩

/-- Claim C10: any constructed `Transformer` carries the single tokenizer pad
id as both its source-side and target-side pad index, so the source padding
mask and the target padding-and-causal mask of a forward pass are both derived
from that one reserved pad token. -/
theorem C10_single_pad_id (a : Args) (sp : SPModel) (d : NMTData) (m : Transformer)
    (h : mainBuild a sp d = Except.ok m) (src trg : List ℤ) :
    m.srcPadIdx = sp.padId ∧
    m.trgPadIdx = sp.padId ∧
    m.srcPadIdx = m.trgPadIdx ∧
    forwardMasks m src trg = (makeSrcMask sp.padId src, makeTrgMask sp.padId trg) := by
  rw [mainBuild] at h
  split at h
  · exact absurd h (by simp)
  · cases h
    exact ⟨rfl, rfl, rfl, rfl⟩

/-- Witness for C10 on the spec's end-to-end example sequences, with pad id 0. -/
theorem C10_single_pad_id_witness :
    mainBuild (Args.mk 256 6 6 8 8 false) (SPModel.mk 4000 0) (NMTData.mk [0, 1]) =
      Except.ok
        (Transformer.mk (Encoder.mk 4000 256 6 8 512 (1 / 10))
          (Decoder.mk 4000 256 6 8 512 (1 / 10)) 0 0) ∧
    forwardMasks
        (Transformer.mk (Encoder.mk 4000 256 6 8 512 (1 / 10))
          (Decoder.mk 4000 256 6 8 512 (1 / 10)) 0 0)
        [5, 12, 7, 0, 0] [1, 3, 9, 2] =
      (makeSrcMask 0 [5, 12, 7, 0, 0], makeTrgMask 0 [1, 3, 9, 2]) :=
  ⟨by rfl,
   (C10_single_pad_id (Args.mk 256 6 6 8 8 false) (SPModel.mk 4000 0) (NMTData.mk [0, 1])
      _ (by rfl) [5, 12, 7, 0, 0] [1, 3, 9, 2]).2.2.2⟩

theorem runEpochs_succ_def {P L : Type} (M : Semantics P L) (tS : ℕ → List TrainInput)
    (vS : ℕ → List Batch) (p0 : P) (n : ℕ) :
    runEpochs M tS vS p0 (n + 1) =
      ⟨(validate M (train M (runEpochs M tS vS p0 n).params (tS n)).1 (vS n)).1,
       (runEpochs M tS vS p0 n).trainLog ++
         [(n, (train M (runEpochs M tS vS p0 n).params (tS n)).2.1.avg,
           (train M (runEpochs M tS vS p0 n).params (tS n)).2.2.1.avg,
           (train M (runEpochs M tS vS p0 n).params (tS n)).2.2.2.avg)],
       (runEpochs M tS vS p0 n).valLog ++
         [(n, (validate M (train M (runEpochs M tS vS p0 n).params (tS n)).1 (vS n)).2.avg)],
       (runEpochs M tS vS p0 n).events ++ [Event.trainEv n, Event.valEv n]⟩ := rfl

theorem runEpochs_save_not_mem {P L : Type} (M : Semantics P L)
    (tS : ℕ → List TrainInput) (vS : ℕ → List Batch) (p0 : P) :
    ∀ n, Event.saveEv ∉ (runEpochs M tS vS p0 n).events := by
  intro n
  induction n with
  | zero => simp [runEpochs]
  | succ k ih => rw [runEpochs_succ_def]; simp [ih]

theorem runEpochs_epoch_events_mem {P L : Type} (M : Semantics P L)
    (tS : ℕ → List TrainInput) (vS : ℕ → List Batch) (p0 : P) :
    ∀ n e, e < n →
      Event.trainEv e ∈ (runEpochs M tS vS p0 n).events ∧
      Event.valEv e ∈ (runEpochs M tS vS p0 n).events := by
  intro n
  induction n with
  | zero => intro e he; omega
  | succ k ih =>
      intro e he
      rw [runEpochs_succ_def]
      rcases Nat.lt_or_ge e k with hlt | hge
      · exact ⟨List.mem_append_left _ (ih e hlt).1, List.mem_append_left _ (ih e hlt).2⟩
      · have : e = k := by omega
        subst this
        exact ⟨List.mem_append_right _ (by simp), List.mem_append_right _ (by simp)⟩

theorem runEpochs_trainLog_length {P L : Type} (M : Semantics P L)
    (tS : ℕ → List TrainInput) (vS : ℕ → List Batch) (p0 : P) :
    ∀ n, (runEpochs M tS vS p0 n).trainLog.length = n := by
  intro n
  induction n with
  | zero => rfl
  | succ k ih => rw [runEpochs_succ_def]; simp [ih]

theorem runEpochs_valLog_length {P L : Type} (M : Semantics P L)
    (tS : ℕ → List TrainInput) (vS : ℕ → List Batch) (p0 : P) :
    ∀ n, (runEpochs M tS vS p0 n).valLog.length = n := by
  intro n
  induction n with
  | zero => rfl
  | succ k ih => rw [runEpochs_succ_def]; simp [ih]

/-- Claim C8: across a whole run the parameter file is written exactly once —
the save event appears once in the trace, as its very last element — and every
epoch's train and validate events come strictly before it. -/
theorem C8_save_once_after_all_epochs {P L : Type} (M : Semantics P L)
    (tS : ℕ → List TrainInput) (vS : ℕ → List Batch) (p0 : P) (n : ℕ) :
    (runMain M tS vS p0 n).events.countP (fun x => decide (x = Event.saveEv)) = 1 ∧
    (runMain M tS vS p0 n).events.getLast? = some Event.saveEv ∧
    (runMain M tS vS p0 n).events.dropLast = (runEpochs M tS vS p0 n).events ∧
    ∀ e, e < n →
      Event.trainEv e ∈ (runMain M tS vS p0 n).events.dropLast ∧
      Event.valEv e ∈ (runMain M tS vS p0 n).events.dropLast := by
  have hev : (runMain M tS vS p0 n).events =
      (runEpochs M tS vS p0 n).events ++ [Event.saveEv] := rfl
  refine ⟨?_, ?_, ?_, ?_⟩
  · rw [hev, List.countP_append]
    have h0 : (runEpochs M tS vS p0 n).events.countP
        (fun x => decide (x = Event.saveEv)) = 0 := by
      rw [List.countP_eq_zero]
      intro a ha
      simp only [decide_eq_true_eq]
      intro hEq
      exact runEpochs_save_not_mem M tS vS p0 n (hEq ▸ ha)
    rw [h0]
    rfl
  · rw [hev]
    exact List.getLast?_concat _
  · rw [hev]
    exact List.dropLast_concat
  · intro e he
    rw [hev, List.dropLast_concat]
    exact runEpochs_epoch_events_mem M tS vS p0 n e he

/-- Witness for C8: a two-epoch run with empty loaders. -/
theorem C8_save_once_after_all_epochs_witness :
    (0 : ℕ) < 2 ∧
    Event.trainEv 0 ∈ (runMain demoSem (fun _ => []) (fun _ => []) 0 2).events.dropLast ∧
    Event.valEv 0 ∈ (runMain demoSem (fun _ => []) (fun _ => []) 0 2).events.dropLast :=
  ⟨by decide,
   (C8_save_once_after_all_epochs demoSem (fun _ => []) (fun _ => []) 0 2).2.2.2 0
     (by decide)⟩

/-- Claim C7: the log record for epoch `e` carries exactly the averages of a
fresh `train` / `validate` invocation on epoch `e`'s batches — the meters are
constructed anew inside each call, so no accumulator state crosses epochs —
and the reported training average is the weighted mean of epoch `e`'s own
per-batch losses alone. -/
theorem C7_meters_reset_per_epoch {P L : Type} (M : Semantics P L)
    (tS : ℕ → List TrainInput) (vS : ℕ → List Batch) (p0 : P) (n e : ℕ) (h : e < n) :
    (runEpochs M tS vS p0 n).trainLog[e]? =
      some (e, (train M (runEpochs M tS vS p0 e).params (tS e)).2.1.avg,
        (train M (runEpochs M tS vS p0 e).params (tS e)).2.2.1.avg,
        (train M (runEpochs M tS vS p0 e).params (tS e)).2.2.2.avg) ∧
    (runEpochs M tS vS p0 n).valLog[e]? =
      some (e, (validate M (train M (runEpochs M tS vS p0 e).params (tS e)).1 (vS e)).2.avg) ∧
    (train M (runEpochs M tS vS p0 e).params (tS e)).2.1.avg =
      weightedSum (trainLosses M (runEpochs M tS vS p0 e).params (tS e)) /
        (totalWeight (trainLosses M (runEpochs M tS vS p0 e).params (tS e)) : ℚ) := by
  refine ⟨?_, ?_, ?_⟩
  · induction n with
    | zero => omega
    | succ k ih =>
        rw [runEpochs_succ_def]
        rcases Nat.lt_or_ge e k with hlt | hge
        · simp only [List.getElem?_append_left
            ((runEpochs_trainLog_length M tS vS p0 k).symm ▸ hlt)]
          exact ih hlt
        · have hek : e = k := by omega
          subst hek
          have hlen := runEpochs_trainLog_length M tS vS p0 e
          have hc := List.getElem?_concat_length (runEpochs M tS vS p0 e).trainLog
            (e, (train M (runEpochs M tS vS p0 e).params (tS e)).2.1.avg,
              (train M (runEpochs M tS vS p0 e).params (tS e)).2.2.1.avg,
              (train M (runEpochs M tS vS p0 e).params (tS e)).2.2.2.avg)
          rw [hlen] at hc
          exact hc
  · induction n with
    | zero => omega
    | succ k ih =>
        rw [runEpochs_succ_def]
        rcases Nat.lt_or_ge e k with hlt | hge
        · simp only [List.getElem?_append_left
            ((runEpochs_valLog_length M tS vS p0 k).symm ▸ hlt)]
          exact ih hlt
        · have hek : e = k := by omega
          subst hek
          have hlen := runEpochs_valLog_length M tS vS p0 e
          have hc := List.getElem?_concat_length (runEpochs M tS vS p0 e).valLog
            (e, (validate M (train M (runEpochs M tS vS p0 e).params (tS e)).1 (vS e)).2.avg)
          rw [hlen] at hc
          exact hc
  · rw [train, trainEpoch_loss_meter, foldMeter_init_avg]

/-- Witness for C7: epoch 0 of a one-epoch run with empty loaders. -/
theorem C7_meters_reset_per_epoch_witness :
    (0 : ℕ) < 1 ∧
    (runEpochs demoSem (fun _ => []) (fun _ => []) 0 1).valLog[0]? =
      some (0, (validate demoSem
        (train demoSem (runEpochs demoSem (fun _ => []) (fun _ => []) 0 0).params
          ((fun _ => ([] : List TrainInput)) 0)).1
        ((fun _ => ([] : List Batch)) 0)).2.avg) :=
  ⟨by decide,
   (C7_meters_reset_per_epoch demoSem (fun _ => []) (fun _ => []) 0 1 0 (by decide)).2.1⟩

end KrDialect
